import Mathlib

/-!
Verification of the biconomy-aave-fusion demo client.

Shallow embedding of the error-handling utilities (src/utils/errors.ts),
the environment validation (src/utils/config.ts), the funding routines
(src/infrastructure/fund-account.ts) and the AAVE fusion orchestrator
(src/app/fusion-aave-demo.ts).  JavaScript runtime values that the error
utilities inspect dynamically are modelled by the inductive `JSValue`;
asynchronous calls to external services (RPC reads, transfers, the relay)
are modelled by explicit outcome parameters, and the sequence of calls a
routine issues before returning or throwing is collected in an event list.
-/

namespace Fusion

/-- JavaScript runtime values, as far as the error-handling utilities of
src/utils/errors.ts inspect them: primitives, strings, bigints, Error
instances (carrying a message), plain objects and arrays. -/
inductive JSValue where
  | undef
  | null
  | bool (b : Bool)
  | num (n : Int)
  | bigint (n : Int)
  | str (s : String)
  | errObj (message : String)
  | obj (fields : List (String × JSValue))
  | arr (elems : List JSValue)

/-- JS truthiness: undefined, null, false, 0, 0n and the empty string are
falsy, every other value (including empty objects and arrays) is truthy. -/
def JSValue.truthy : JSValue → Bool
  | .undef => false
  | .null => false
  | .bool b => b
  | .num n => n != 0
  | .bigint n => n != 0
  | .str s => s != ""
  | .errObj _ => true
  | .obj _ => true
  | .arr _ => true

/-- Result of the JS typeof-object test: true for null, plain objects,
arrays and Error instances. -/
def typeofObject : JSValue → Bool
  | .null => true
  | .obj _ => true
  | .arr _ => true
  | .errObj _ => true
  | _ => false

/-- Property access `v?.name` with optional-chaining semantics: absent
properties and access on primitives yield undefined.  An Error instance
exposes its `message` property. -/
def JSValue.getField : JSValue → String → JSValue
  | .obj fields, name => lookupField fields name
  | .errObj m, name => if name = "message" then .str m else .undef
  | _, _ => .undef
where
  lookupField : List (String × JSValue) → String → JSValue
    | [], _ => .undef
    | (k, v) :: rest, name => if k = name then v else lookupField rest name

/-- Test used for the JS isArray check on a dynamic value. -/
def JSValue.isArr : JSValue → Bool
  | .arr _ => true
  | _ => false

/-- The element list of an array value (empty for non-arrays). -/
def JSValue.elems : JSValue → List JSValue
  | .arr l => l
  | _ => []

/-- Whether a value is a string. -/
def JSValue.isString : JSValue → Bool
  | .str _ => true
  | _ => false

/-- String conversion of non-array values (the array case recurses and
is handled by jsArrToString). -/
def jsPrimToString : JSValue → String
  | .undef => "undefined"
  | .null => "null"
  | .bool b => if b then "true" else "false"
  | .num n => toString n
  | .bigint n => toString n
  | .str s => s
  | .errObj m => if m = "" then "Error" else "Error: " ++ m
  | .obj _ => "[object Object]"
  | .arr _ => ""

mutual

/-- Array rendering of the JS string conversion: elements joined with a
comma, where undefined and null render as the empty string. -/
def jsArrToString : List JSValue → String
  | [] => ""
  | [v] => jsElemToString v
  | v :: rest => jsElemToString v ++ "," ++ jsArrToString rest

/-- Conversion of a single array element for joined rendering. -/
def jsElemToString : JSValue → String
  | .undef => ""
  | .null => ""
  | .arr elems => jsArrToString elems
  | v => jsPrimToString v

end

/-- The JS string conversion, used by the catch-all fallback of
extractErrorDetails and by template literals. -/
def jsToString : JSValue → String
  | .arr elems => jsArrToString elems
  | v => jsPrimToString v

/-- Join of an error array with a semicolon separator, as used on MEE
error arrays: elements converted like the string conversion, undefined
and null rendering as the empty string. -/
def joinSemi : List JSValue → String
  | [] => ""
  | [v] => jsElemToString v
  | v :: rest => jsElemToString v ++ "; " ++ joinSemi rest

mutual

/-- JSON serialization: returns no string at top-level undefined, throws a
TypeError on bigints (modelled by `Except.error ()`), omits fields whose
value serializes to nothing, and renders undefined array elements as
null.  String escaping inside literals is elided, as no claim depends on
the rendered JSON text. -/
def jsonStringify : JSValue → Except Unit (Option String)
  | .undef => .ok none
  | .null => .ok (some "null")
  | .bool b => .ok (some (if b then "true" else "false"))
  | .num n => .ok (some (toString n))
  | .bigint _ => .error ()
  | .str s => .ok (some ("\"" ++ s ++ "\""))
  | .errObj _ => .ok (some "\x7b\x7d")
  | .obj fields =>
      match jsonStringifyFields fields with
      | .error e => .error e
      | .ok parts => .ok (some ("\x7b" ++ String.intercalate "," parts ++ "\x7d"))
  | .arr elems =>
      match jsonStringifyElems elems with
      | .error e => .error e
      | .ok parts => .ok (some ("[" ++ String.intercalate "," parts ++ "]"))

/-- Serialization of the fields of an object. -/
def jsonStringifyFields : List (String × JSValue) → Except Unit (List String)
  | [] => .ok []
  | (k, v) :: rest =>
      match jsonStringify v, jsonStringifyFields rest with
      | .error e, _ => .error e
      | _, .error e => .error e
      | .ok none, .ok tail => .ok tail
      | .ok (some s), .ok tail => .ok (("\"" ++ k ++ "\":" ++ s) :: tail)

/-- Serialization of the elements of an array. -/
def jsonStringifyElems : List JSValue → Except Unit (List String)
  | [] => .ok []
  | v :: rest =>
      match jsonStringify v, jsonStringifyElems rest with
      | .error e, _ => .error e
      | _, .error e => .error e
      | .ok s, .ok tail => .ok ((s.getD "null") :: tail)

end

/-- src/utils/errors.ts extractErrorMessage: Error instances yield their
message, strings yield themselves, objects yield the first truthy field
among reason, message, error.message, shortMessage, details (the raw
field value, as the source performs no conversion), and everything else
falls back to the string literal. -/
def extractErrorMessage (error : JSValue) : JSValue :=
  match error with
  | .errObj m => .str m
  | .str s => .str s
  | e =>
      if e.truthy && typeofObject e then
        let reason := e.getField "reason"
        if reason.truthy then reason
        else
          let message := e.getField "message"
          if message.truthy then message
          else
            let innerMessage := (e.getField "error").getField "message"
            if innerMessage.truthy then innerMessage
            else
              let shortMessage := e.getField "shortMessage"
              if shortMessage.truthy then shortMessage
              else
                let details := e.getField "details"
                if details.truthy then details
                else .str "Unknown error occurred"
      else .str "Unknown error occurred"

/-- src/utils/errors.ts extractErrorDetails: tries MEE error arrays,
message fields, error arrays, the reason field, JSON serialization of a
data field, and finally JSON serialization of the whole value; a throwing
serialization is caught and answered with `String(error)`. -/
def extractErrorDetails (error : JSValue) : JSValue :=
  let meeErrors := (error.getField "error").getField "errors"
  if meeErrors.truthy && meeErrors.isArr then .str (joinSemi meeErrors.elems)
  else
    let message := error.getField "message"
    if message.truthy then message
    else
      let innerMessage := (error.getField "error").getField "message"
      if innerMessage.truthy then innerMessage
      else
        let errorsField := error.getField "errors"
        if errorsField.isArr then .str (joinSemi errorsField.elems)
        else
          let reason := error.getField "reason"
          if reason.truthy then reason
          else
            let dataField := error.getField "data"
            if dataField.truthy then
              match jsonStringify dataField with
              | .ok none => .undef
              | .ok (some s) => .str s
              | .error _ => .str (jsToString error)
            else
              match jsonStringify error with
              | .ok none => .undef
              | .ok (some s) => .str s
              | .error _ => .str (jsToString error)

/-- Occurrence scan behind `jsIncludes`: whether the needle is a prefix
of any suffix of the haystack. -/
def strIncludesGo (needle : List Char) : List Char → Bool
  | [] => needle.isEmpty
  | c :: rest => needle.isPrefixOf (c :: rest) || strIncludesGo needle rest

/-- Substring test of JS strings, for the keyword matching of
createFriendlyErrorMessage and for the anvil check in the fund-account
catch handler. -/
def jsIncludes (haystack needle : String) : Bool :=
  strIncludesGo needle.toList haystack.toList

/-- src/utils/errors.ts createFriendlyErrorMessage, suggestion part: the
remediation hints accumulated by keyword matching on the error text. -/
def suggestionsFor (message : String) : List String :=
  (if jsIncludes message "ECONNREFUSED" || jsIncludes message "network" then
    ["Check if Anvil is running: npm run infra:anvil",
     "Check if MEE Node is running: npm run infra:mee",
     "Verify network connectivity"]
   else []) ++
  (if jsIncludes message "revert" || jsIncludes message "execution reverted" then
    ["Check if contracts are deployed on the fork",
     "Verify transaction parameters",
     "Check account balance and allowances"]
   else []) ++
  (if jsIncludes message "gas" || jsIncludes message "out of gas" then
    ["Increase gas limit in transaction",
     "Check if account has sufficient ETH for gas"]
   else []) ++
  (if jsIncludes message "unauthorized" || jsIncludes message "access denied" then
    ["Check private key configuration",
     "Verify account permissions"]
   else []) ++
  (if jsIncludes message "rate limit" || jsIncludes message "too many requests" then
    ["Wait before retrying",
     "Consider using a different RPC provider"]
   else [])

/-- The suggestion block appended to the final error message of the retry
wrapper when suggestions are available. -/
def appendSuggestions (base : String) (suggestions : List String) : String :=
  if suggestions.isEmpty then base
  else
    base ++ "\n\nSuggestions:\n" ++
      String.intercalate "\n" (suggestions.map (fun s => "  • " ++ s))

/-- The backoff sleep of src/utils/errors.ts withErrorHandling before the
attempt after `attempt`: `min(1000 * 2 ** (attempt - 1), 5000)`. -/
def backoffDelay (attempt : Nat) : Nat :=
  min (1000 * 2 ^ (attempt - 1)) 5000

/-- Observable behaviour of one call to a function wrapped by
withErrorHandling: how many times the underlying function was invoked,
the backoff sleeps performed between invocations, and the final result. -/
structure RetryTrace (R : Type) where
  attemptsUsed : Nat
  delays : List Nat
  result : Except String R

/-- The retry loop of withErrorHandling over the remaining attempt
numbers, threading the last wrapped error.  The underlying operation is
modelled by `f`, mapping the attempt number to that invocation outcome;
thrown values are modelled by the message of the thrown Error, so the
`createFriendlyErrorMessage` message component is the thrown message
itself (extractErrorMessage of an Error instance yields its message). -/
def withEHGo {R : Type} (f : Nat → Except String R) (context : String) :
    List Nat → Option String → RetryTrace R
  | [], lastError =>
      ⟨0, [], .error (lastError.getD ("[" ++ context ++ "] Unknown error occurred"))⟩
  | attempt :: rest, _ =>
      match f attempt with
      | .ok r => ⟨1, [], .ok r⟩
      | .error e =>
          let newLast := "[" ++ context ++ "] " ++ e
          if attempt < 3 then
            let t := withEHGo f context rest (some newLast)
            ⟨1 + t.attemptsUsed, backoffDelay attempt :: t.delays, t.result⟩
          else
            ⟨1, [], .error (appendSuggestions newLast (suggestionsFor e))⟩

/-- src/utils/errors.ts withErrorHandling: up to 3 total attempts with
exponential backoff capped at 5000 ms. -/
def withErrorHandling {R : Type} (f : Nat → Except String R) (context : String) :
    RetryTrace R :=
  withEHGo f context [1, 2, 3] none

/-- Calls issued by fundTestAccount against the chain simulator and the
stablecoin contract, in issue order: donor balance probes during the
scan, the impersonation grant, the gas top-up, the transfer call and the
impersonation revocation.  The target-wallet verification read and the
signer acquisition have no entry, as no claim mentions them. -/
inductive FundEvent where
  | checkBalance (whale : String)
  | impersonate (whale : String)
  | setEthBalance (whale : String)
  | transferCall (whale : String) (amount : Nat)
  | stopImpersonate (whale : String)
  deriving DecidableEq

/-- The fixed donor candidate list of src/infrastructure/fund-account.ts,
in declaration order. -/
def USDC_WHALES : List String :=
  ["0x55fe002aeff02f77364de339a1292923a15844b8",
   "0x5414d89a8bf7e99d732bc52f3e6a3ef461c0c078",
   "0xdfd5293d8e347dfe59e90efd55b2956a1343963d",
   "0x28c6c06298d514db089934071355e5743bf21d60",
   "0x21a31ee1afc51d94c2efccaa2092ad1028285549"]

/-- The donor-selection loop of fundTestAccount over the remaining
candidates: reads each balance (`bal w = none` models a throwing read,
which is logged and skipped) and selects the first candidate whose
balance is at least the requested amount.  Returns the issued balance
probes and the selected donor, if any. -/
def findWhaleGo (amount : Nat) (bal : String → Option Nat) :
    List String → List FundEvent × Option String
  | [] => ([], none)
  | w :: rest =>
      match bal w with
      | none =>
          (FundEvent.checkBalance w :: (findWhaleGo amount bal rest).1,
           (findWhaleGo amount bal rest).2)
      | some b =>
          if amount ≤ b then ([FundEvent.checkBalance w], some w)
          else
            (FundEvent.checkBalance w :: (findWhaleGo amount bal rest).1,
             (findWhaleGo amount bal rest).2)

/-- Outcomes of the fallible steps fundTestAccount performs after a donor
was selected.  `some m` models the step throwing an Error with message
`m`; `receiptOk` models `receipt && receipt.status === 1` after a
successful wait. -/
structure FundSteps where
  impersonateCall : Option String
  setBalanceCall : Option String
  getSignerCall : Option String
  transferSend : Option String
  waitCall : Option String
  receiptOk : Bool
  verifyReadCall : Option String

/-- The catch handler of fundTestAccount: an Error whose message mentions
anvil_impersonateAccount is replaced by the anvil hint, every other Error
message is wrapped with the funding-failed context. -/
def wrapFundError (m : String) : String :=
  if jsIncludes m "anvil_impersonateAccount" then
    "Anvil impersonation failed. Ensure Anvil is running with mainnet fork: npm run infra:anvil"
  else "USDC funding failed: " ++ m

/-- The portion of fundTestAccount after a donor `w` was selected: grants
impersonation, tops up gas, acquires the signer, issues the transfer,
waits for its receipt, verifies the target balance and revokes the
impersonation; every throwing step diverts to the catch handler, which
also issues the revocation before rethrowing the wrapped error. -/
def fundAfterSelect (amount : Nat) (w : String) (st : FundSteps) :
    List FundEvent × Except String Unit :=
  match st.impersonateCall with
  | some m =>
      ([FundEvent.impersonate w, FundEvent.stopImpersonate w],
       .error (wrapFundError m))
  | none =>
    match st.setBalanceCall with
    | some m =>
        ([FundEvent.impersonate w, FundEvent.setEthBalance w,
          FundEvent.stopImpersonate w],
         .error (wrapFundError m))
    | none =>
      match st.getSignerCall with
      | some m =>
          ([FundEvent.impersonate w, FundEvent.setEthBalance w,
            FundEvent.stopImpersonate w],
           .error (wrapFundError m))
      | none =>
        match st.transferSend with
        | some m =>
            ([FundEvent.impersonate w, FundEvent.setEthBalance w,
              FundEvent.transferCall w amount, FundEvent.stopImpersonate w],
             .error (wrapFundError m))
        | none =>
          match st.waitCall with
          | some m =>
              ([FundEvent.impersonate w, FundEvent.setEthBalance w,
                FundEvent.transferCall w amount, FundEvent.stopImpersonate w],
               .error (wrapFundError m))
          | none =>
            if st.receiptOk then
              match st.verifyReadCall with
              | some m =>
                  ([FundEvent.impersonate w, FundEvent.setEthBalance w,
                    FundEvent.transferCall w amount, FundEvent.stopImpersonate w],
                   .error (wrapFundError m))
              | none =>
                  ([FundEvent.impersonate w, FundEvent.setEthBalance w,
                    FundEvent.transferCall w amount, FundEvent.stopImpersonate w],
                   .ok ())
            else
              ([FundEvent.impersonate w, FundEvent.setEthBalance w,
                FundEvent.transferCall w amount, FundEvent.stopImpersonate w],
               .error (wrapFundError "USDC transfer transaction failed"))

/-- src/infrastructure/fund-account.ts fundTestAccount (single run of the
wrapped body): scans the fixed donor list; without a qualifying donor it
throws the no-suitable-whale infrastructure error, which the catch
handler wraps after issuing a revocation for the still-initial donor
variable (the first list entry); with a selected donor it proceeds with
`fundAfterSelect`.  `fmt` stands for the formatTokenAmount rendering used
inside messages, whose float formatting is environment behaviour. -/
def fundTestAccount (amount : Nat) (bal : String → Option Nat) (st : FundSteps)
    (fmt : Nat → String) : List FundEvent × Except String Unit :=
  match (findWhaleGo amount bal USDC_WHALES).2 with
  | none =>
      ((findWhaleGo amount bal USDC_WHALES).1 ++
         [FundEvent.stopImpersonate (USDC_WHALES.getD 0 "")],
       .error (wrapFundError
         ("No suitable USDC whale found with sufficient balance. Need: " ++ fmt amount)))
  | some w =>
      ((findWhaleGo amount bal USDC_WHALES).1 ++ (fundAfterSelect amount w st).1,
       (fundAfterSelect amount w st).2)

/-- Observable behaviour of one run of the ensureSufficientUSDC body: the
amounts passed to the transfer routine, in order, and the final result. -/
structure EnsureTrace where
  transfers : List Nat
  result : Except String Unit

/-- src/infrastructure/fund-account.ts ensureSufficientUSDC (single run
of the wrapped body).  Successive balance reads are modelled by `b0` (the
initial read), `b1` (the re-read after the first funding call) and `b2`
(the read after the fallback call); the two calls to the wrapped transfer
routine are modelled by their outcomes `f1` and `f2` (`.error` models the
routine rethrowing after its own retries). -/
def ensureSufficientUSDC (targetAmount b0 : Nat) (f1 : Except String Unit)
    (b1 : Nat) (f2 : Except String Unit) (b2 : Nat) (fmt : Nat → String) :
    EnsureTrace :=
  if targetAmount ≤ b0 then ⟨[], .ok ()⟩
  else
    let amountToFund := targetAmount - b0
    match f1 with
    | .error e => ⟨[amountToFund], .error e⟩
    | .ok () =>
        if targetAmount ≤ b1 then ⟨[amountToFund], .ok ()⟩
        else
          match f2 with
          | .error e => ⟨[amountToFund, targetAmount], .error e⟩
          | .ok () =>
              if targetAmount ≤ b2 then ⟨[amountToFund, targetAmount], .ok ()⟩
              else
                ⟨[amountToFund, targetAmount],
                 .error ("Failed to fund account sufficiently. Target: " ++
                   fmt targetAmount ++ ", Got: " ++ fmt b2)⟩

/-- Donor balances of the spec example: the first three candidates hold
30, 80 and 150 raw units, the rest hold nothing. -/
def exampleBalances : String → Option Nat := fun w =>
  if w = "0x55fe002aeff02f77364de339a1292923a15844b8" then some 30
  else if w = "0x5414d89a8bf7e99d732bc52f3e6a3ef461c0c078" then some 80
  else if w = "0xdfd5293d8e347dfe59e90efd55b2956a1343963d" then some 150
  else some 0

/-- Step outcomes with every step succeeding. -/
def noFailSteps : FundSteps := ⟨none, none, none, none, none, true, none⟩

/-- A plain decimal rendering standing in for formatTokenAmount in
concrete witnesses. -/
def fmtRaw : Nat → String := fun n => toString n

/-- Donor balances under which no candidate qualifies. -/
def poorBalances : String → Option Nat := fun _ => some 0

/-- Step outcomes where the transfer call itself throws. -/
def failTransferSteps : FundSteps :=
  ⟨none, none, none, some "transfer reverted", none, true, none⟩

/-- An operation that fails on every attempt, used as a concrete witness
input for the retry wrapper. -/
def retryAllFail : Nat → Except String Nat := fun _ => .error "boom"

/-- A relay receipt with a terminal failure status and an attached
diagnostic message, used as a concrete witness input. -/
def failedReceipt : JSValue :=
  .obj [("transactionStatus", .str "FAILED"), ("message", .str "AA23 reverted")]

/-- Character class of the private-key regular expression. -/
def isHexChar (c : Char) : Bool :=
  c.isDigit || ("a" ≤ c.toString && c.toString ≤ "f") || ("A" ≤ c.toString && c.toString ≤ "F")

/-- src/utils/validation.ts isValidPrivateKey: strips an optional 0x
marker and requires exactly 64 hexadecimal characters. -/
def isValidPrivateKey (privateKey : String) : Bool :=
  let key := if privateKey.startsWith "0x" then privateKey.drop 2 else privateKey
  key.length == 64 && key.toList.all isHexChar

/-- Numeric coercion of JS strings restricted to what the Anvil option
checks feed it: the
empty string is 0, a string of digits with an optional minus sign is that
integer, and everything else is NaN (`none`).  Fractional, hexadecimal
and whitespace-bearing numeric literals do not occur in these checks and
are elided. -/
def jsNumber (s : String) : Option Int :=
  if s = "" then some 0
  else if s.startsWith "-" then ((s.drop 1).toNat?).map (fun n => -(n : Int))
  else (s.toNat?).map (fun n => (n : Int))

/-- The positivity test `!(isNaN(Number(s)) || Number(s) <= 0)`. -/
def posNumber (s : String) : Bool :=
  match jsNumber s with
  | none => false
  | some n => 0 < n

/-- The process environment fields read by loadEnvironment; `none` models
an unset variable. -/
structure Env where
  ETH_MAINNET_RPC_URL : Option String
  TEST_PRIVATE_KEY : Option String
  MEE_NODE_URL : Option String
  ANVIL_RPC_URL : Option String
  ANVIL_PORT : Option String
  ANVIL_CHAIN_ID : Option String
  ANVIL_BLOCK_TIME : Option String

/-- The validation errors accumulated by src/utils/config.ts
loadEnvironment, in source push order.  `validUrl` stands for
isValidUrl, whose outcome is decided by the runtime URL parser.  JS
truthiness makes an empty-string value count as missing for the required
fields and skips the optional-field checks. -/
def envErrors (validUrl : String → Bool) (env : Env) : List String :=
  (match env.ETH_MAINNET_RPC_URL with
   | none => ["ETH_MAINNET_RPC_URL is required"]
   | some u =>
       if u = "" then ["ETH_MAINNET_RPC_URL is required"]
       else if validUrl u then [] else ["ETH_MAINNET_RPC_URL must be a valid URL"]) ++
  (match env.TEST_PRIVATE_KEY with
   | none => ["TEST_PRIVATE_KEY is required"]
   | some k =>
       if k = "" then ["TEST_PRIVATE_KEY is required"]
       else if isValidPrivateKey k then [] else ["TEST_PRIVATE_KEY must be a valid private key"]) ++
  (match env.MEE_NODE_URL with
   | none => []
   | some u =>
       if u != "" && !validUrl u then ["MEE_NODE_URL must be a valid URL"] else []) ++
  (match env.ANVIL_RPC_URL with
   | none => []
   | some u =>
       if u != "" && !validUrl u then ["ANVIL_RPC_URL must be a valid URL"] else []) ++
  (match env.ANVIL_PORT with
   | none => []
   | some p =>
       if p != "" && !posNumber p then ["ANVIL_PORT must be a positive number"] else []) ++
  (match env.ANVIL_CHAIN_ID with
   | none => []
   | some p =>
       if p != "" && !posNumber p then ["ANVIL_CHAIN_ID must be a positive number"] else []) ++
  (match env.ANVIL_BLOCK_TIME with
   | none => []
   | some p =>
       if p != "" && !posNumber p then ["ANVIL_BLOCK_TIME must be a positive number"] else [])

/-- src/utils/config.ts loadEnvironment: collects every validation error
and aborts startup with the aggregated message when any was found. -/
def loadEnvironment (validUrl : String → Bool) (env : Env) : Except String Env :=
  let errors := envErrors validUrl env
  if errors.isEmpty then .ok env
  else .error ("Environment validation failed:\n" ++ String.intercalate "\n" errors)

/-- An environment with every variable unset, used as a concrete witness
input. -/
def envEmpty : Env := ⟨none, none, none, none, none, none, none⟩

/-- A URL validator accepting everything, standing in for the runtime URL
parser in concrete witnesses. -/
def urlAlwaysValid : String → Bool := fun _ => true

/-- Strict string equality `v === lit` between a dynamic value and a
string literal, as used on the receipt status. -/
def jsStrictEqStr (v : JSValue) (lit : String) : Bool :=
  match v with
  | .str s => s = lit
  | _ => false

/-- Relay calls issued by executeFusionTransaction, in issue order. -/
inductive DemoAction where
  | buildApprove (amount : Nat)
  | buildSupply (amount : Nat)
  | getQuote (amount : Nat)
  | executeQuote
  | waitReceipt
  deriving DecidableEq

/-- The result record built by executeFusionTransaction on success. -/
structure FusionOutcome where
  success : Bool
  supplyAmount : Nat
  aTokensReceived : Nat
  deriving DecidableEq

/-- src/app/fusion-aave-demo.ts executeFusionTransaction, from the point
where the relay calls are issued: builds the approve and supply
instructions, obtains and executes the fusion quote, waits for the
receipt, and classifies the terminal status.  A FAILED or MINED_FAIL
status raises a transaction error carrying extractErrorDetails of the
receipt; the catch handler of the same function re-wraps that error
message once more before rethrowing.  Any other status returns the
success record, with the received aToken amount approximated by the
supplied amount. -/
def executeFusionTransaction (supplyAmount : Nat) (receipt : JSValue) :
    List DemoAction × Except String FusionOutcome :=
  let actions := [DemoAction.buildApprove supplyAmount, DemoAction.buildSupply supplyAmount,
    DemoAction.getQuote supplyAmount, DemoAction.executeQuote, DemoAction.waitReceipt]
  if jsStrictEqStr (receipt.getField "transactionStatus") "FAILED" ||
      jsStrictEqStr (receipt.getField "transactionStatus") "MINED_FAIL" then
    (actions,
     .error ("Fusion execution failed: " ++
       ("Fusion transaction failed: " ++ jsToString (extractErrorDetails receipt))))
  else
    (actions, .ok ⟨true, supplyAmount, supplyAmount⟩)

/-- src/app/fusion-aave-demo.ts executeFusionAaveDemo, from the point
where the post-funding stablecoin balance is known: refuses with a
transaction error when the balance is under the 20 USDC floor (20000000
raw units) without issuing any relay call, and otherwise supplies half
the balance (integer floor division) via executeFusionTransaction.
`fmt` stands for the formatted balance string of the snapshot. -/
def demoSupplyStep (fmt : Nat → String) (balance : Nat) (receipt : JSValue) :
    List DemoAction × Except String FusionOutcome :=
  if balance < 20000000 then
    ([],
     .error ("Insufficient USDC balance for demo execution. Current balance: " ++
       fmt balance ++ " USDC. Minimum required: 20 USDC. Please fund your account."))
  else
    executeFusionTransaction (balance / 2) receipt

/-- Every event issued by the donor-selection loop is a balance probe. -/
theorem findWhaleGo_events_check (amount : Nat) (bal : String → Option Nat) :
    ∀ (l : List String), ∀ e ∈ (findWhaleGo amount bal l).1,
      ∃ u, e = FundEvent.checkBalance u := by
  intro l
  induction l with
  | nil => intro e he; simp [findWhaleGo] at he
  | cons w rest ih =>
      intro e he
      rcases hb : bal w with _ | b
      · simp [findWhaleGo, hb] at he
        rcases he with rfl | he
        · exact ⟨w, rfl⟩
        · exact ih e he
      · by_cases hge : amount ≤ b
        · simp [findWhaleGo, hb, hge] at he
          exact ⟨w, he⟩
        · simp [findWhaleGo, hb, hge] at he
          rcases he with rfl | he
          · exact ⟨w, rfl⟩
          · exact ih e he

/-- A donor returned by the selection loop is the first list entry whose
balance read succeeded with at least the requested amount; every earlier
entry either failed to read (and was skipped) or was insufficient. -/
theorem findWhaleGo_some_spec (amount : Nat) (bal : String → Option Nat) :
    ∀ (l : List String) (w : String), (findWhaleGo amount bal l).2 = some w →
      ∃ pre post, l = pre ++ w :: post ∧
        (∀ u ∈ pre, ∀ b, bal u = some b → b < amount) ∧
        ∃ b, bal w = some b ∧ amount ≤ b := by
  intro l
  induction l with
  | nil => intro w h; simp [findWhaleGo] at h
  | cons w0 rest ih =>
      intro w h
      rcases hb : bal w0 with _ | b
      · simp only [findWhaleGo, hb] at h
        obtain ⟨pre, post, hsplit, hpre, hw⟩ := ih w h
        refine ⟨w0 :: pre, post, by simp [hsplit], ?_, hw⟩
        intro u hu b hbu
        rcases List.mem_cons.mp hu with rfl | hu
        · rw [hb] at hbu; cases hbu
        · exact hpre u hu b hbu
      · by_cases hge : amount ≤ b
        · simp only [findWhaleGo, hb, if_pos hge, Option.some.injEq] at h
          subst h
          exact ⟨[], rest, rfl, by simp, b, hb, hge⟩
        · simp only [findWhaleGo, hb, if_neg hge] at h
          obtain ⟨pre, post, hsplit, hpre, hw⟩ := ih w h
          refine ⟨w0 :: pre, post, by simp [hsplit], ?_, hw⟩
          intro u hu b2 hbu
          rcases List.mem_cons.mp hu with rfl | hu
          · rw [hb] at hbu
            cases hbu
            omega
          · exact hpre u hu b2 hbu

/-- After a donor was selected, the only impersonation grant in the trace
is for that donor, and the revocation for it is always in the trace. -/
theorem fundAfterSelect_events (amount : Nat) (w : String) (st : FundSteps) :
    (∀ w2, FundEvent.impersonate w2 ∈ (fundAfterSelect amount w st).1 → w2 = w) ∧
    FundEvent.stopImpersonate w ∈ (fundAfterSelect amount w st).1 := by
  rcases st with ⟨i, sb, gs, tc, wc, ro, vr⟩
  rcases i with _ | mi <;> rcases sb with _ | ms <;> rcases gs with _ | mg <;>
    rcases tc with _ | mt <;> rcases wc with _ | mw <;> cases ro <;>
    rcases vr with _ | mv <;> simp [fundAfterSelect]

/-- Claim C1: whenever the orchestrator proceeds past its minimum-balance
check (balance at least 20000000 raw units), every relay instruction it
builds and submits carries exactly balance / 2 (integer floor division,
remainder discarded), and a successful result records that same acted
amount. -/
theorem supply_amount_is_half (fmt : Nat → String) (balance : Nat)
    (receipt : JSValue) (h : 20000000 ≤ balance) :
    (demoSupplyStep fmt balance receipt).1 =
      [DemoAction.buildApprove (balance / 2), DemoAction.buildSupply (balance / 2),
       DemoAction.getQuote (balance / 2), DemoAction.executeQuote, DemoAction.waitReceipt] ∧
    ∀ res, (demoSupplyStep fmt balance receipt).2 = .ok res →
      res.supplyAmount = balance / 2 := by
  have hnot : ¬ balance < 20000000 := by omega
  unfold demoSupplyStep
  rw [if_neg hnot]
  unfold executeFusionTransaction
  by_cases hs : (jsStrictEqStr (receipt.getField "transactionStatus") "FAILED" ||
      jsStrictEqStr (receipt.getField "transactionStatus") "MINED_FAIL") = true
  · rw [if_pos hs]
    exact ⟨rfl, by intro res hres; cases hres⟩
  · rw [if_neg hs]
    refine ⟨rfl, ?_⟩
    intro res hres
    cases hres
    rfl

/-- Witness for C1 at a concrete balance of 100000001 raw units. -/
theorem supply_amount_is_half_witness :
    20000000 ≤ 100000001 ∧
    ((demoSupplyStep fmtRaw 100000001 JSValue.null).1 =
      [DemoAction.buildApprove (100000001 / 2), DemoAction.buildSupply (100000001 / 2),
       DemoAction.getQuote (100000001 / 2), DemoAction.executeQuote, DemoAction.waitReceipt] ∧
    ∀ res, (demoSupplyStep fmtRaw 100000001 JSValue.null).2 = .ok res →
      res.supplyAmount = 100000001 / 2) :=
  ⟨by decide, supply_amount_is_half fmtRaw 100000001 JSValue.null (by decide)⟩

/-- Claim C9: a post-funding balance under the fixed 20 USDC floor
(20000000 raw units) makes the orchestrator raise the insufficient-balance
transaction error without issuing any relay call, independently of the
halving, which only happens after this check passes. -/
theorem min_balance_floor (fmt : Nat → String) (balance : Nat)
    (receipt : JSValue) (h : balance < 20000000) :
    (demoSupplyStep fmt balance receipt).1 = [] ∧
    (demoSupplyStep fmt balance receipt).2 =
      .error ("Insufficient USDC balance for demo execution. Current balance: " ++
        fmt balance ++ " USDC. Minimum required: 20 USDC. Please fund your account.") := by
  unfold demoSupplyStep
  rw [if_pos h]
  exact ⟨rfl, rfl⟩

/-- Witness for C9 at a concrete balance of 19999999 raw units. -/
theorem min_balance_floor_witness :
    19999999 < 20000000 ∧
    ((demoSupplyStep fmtRaw 19999999 JSValue.null).1 = [] ∧
     (demoSupplyStep fmtRaw 19999999 JSValue.null).2 =
      .error ("Insufficient USDC balance for demo execution. Current balance: " ++
        fmtRaw 19999999 ++ " USDC. Minimum required: 20 USDC. Please fund your account.")) :=
  ⟨by decide, min_balance_floor fmtRaw 19999999 JSValue.null (by decide)⟩

/-- Claim C7: when the wallet already holds at least the requested target,
the funding manager performs zero transfer calls and returns successfully,
leaving every on-chain balance untouched. -/
theorem sufficient_balance_no_transfer (targetAmount b0 : Nat)
    (f1 : Except String Unit) (b1 : Nat) (f2 : Except String Unit) (b2 : Nat)
    (fmt : Nat → String) (h : targetAmount ≤ b0) :
    ensureSufficientUSDC targetAmount b0 f1 b1 f2 b2 fmt = ⟨[], .ok ()⟩ := by
  unfold ensureSufficientUSDC
  rw [if_pos h]

/-- Witness for C7: target 100000000 against a balance of 100000000. -/
theorem sufficient_balance_no_transfer_witness :
    100000000 ≤ 100000000 ∧
    ensureSufficientUSDC 100000000 100000000 (.ok ()) 0 (.ok ()) 0 fmtRaw = ⟨[], .ok ()⟩ :=
  ⟨by decide,
   sufficient_balance_no_transfer 100000000 100000000 (.ok ()) 0 (.ok ()) 0 fmtRaw (by decide)⟩

/-- Claim C2: for a wallet below target, the funding manager first calls
the transfer routine exactly once for the shortfall; when the re-read
balance is still short it calls the routine exactly once more for the
full target; and when the balance is still short after that second
attempt it raises the infrastructure error naming the target and the
achieved balance (hence the remaining shortfall). -/
theorem funding_two_attempts (targetAmount b0 : Nat) (f1 : Except String Unit)
    (b1 : Nat) (f2 : Except String Unit) (b2 : Nat) (fmt : Nat → String)
    (h : b0 < targetAmount) :
    (ensureSufficientUSDC targetAmount b0 f1 b1 f2 b2 fmt).transfers.take 1 =
      [targetAmount - b0] ∧
    (f1 = .ok () → targetAmount ≤ b1 →
      ensureSufficientUSDC targetAmount b0 f1 b1 f2 b2 fmt =
        ⟨[targetAmount - b0], .ok ()⟩) ∧
    (f1 = .ok () → b1 < targetAmount →
      (ensureSufficientUSDC targetAmount b0 f1 b1 f2 b2 fmt).transfers =
        [targetAmount - b0, targetAmount]) ∧
    (f1 = .ok () → b1 < targetAmount → f2 = .ok () → b2 < targetAmount →
      (ensureSufficientUSDC targetAmount b0 f1 b1 f2 b2 fmt).result =
        .error ("Failed to fund account sufficiently. Target: " ++
          fmt targetAmount ++ ", Got: " ++ fmt b2)) := by
  have hnot : ¬ targetAmount ≤ b0 := by omega
  rcases f1 with e1 | u1
  · refine ⟨?_, ?_, ?_, ?_⟩ <;> simp [ensureSufficientUSDC, hnot]
  · cases u1
    by_cases hb1 : targetAmount ≤ b1
    · refine ⟨?_, ?_, ?_, ?_⟩ <;> simp [ensureSufficientUSDC, hnot, hb1]
    · rcases f2 with e2 | u2
      · refine ⟨?_, ?_, ?_, ?_⟩ <;> simp [ensureSufficientUSDC, hnot, hb1]
      · cases u2
        by_cases hb2 : targetAmount ≤ b2
        · refine ⟨?_, ?_, ?_, ?_⟩ <;> simp [ensureSufficientUSDC, hnot, hb1, hb2]
        · refine ⟨?_, ?_, ?_, ?_⟩ <;> simp [ensureSufficientUSDC, hnot, hb1, hb2]

/-- Witness for C2: target 100, initial balance 40, re-read 70, final 60:
the shortfall transfer of 60 is followed by a full-target transfer of 100
and the aggregate failure message. -/
theorem funding_two_attempts_witness :
    40 < 100 ∧
    ((ensureSufficientUSDC 100 40 (.ok ()) 70 (.ok ()) 60 fmtRaw).transfers.take 1 = [100 - 40] ∧
     ((.ok () : Except String Unit) = .ok () → 100 ≤ 70 →
       ensureSufficientUSDC 100 40 (.ok ()) 70 (.ok ()) 60 fmtRaw = ⟨[100 - 40], .ok ()⟩) ∧
     ((.ok () : Except String Unit) = .ok () → 70 < 100 →
       (ensureSufficientUSDC 100 40 (.ok ()) 70 (.ok ()) 60 fmtRaw).transfers = [100 - 40, 100]) ∧
     ((.ok () : Except String Unit) = .ok () → 70 < 100 →
       (.ok () : Except String Unit) = .ok () → 60 < 100 →
       (ensureSufficientUSDC 100 40 (.ok ()) 70 (.ok ()) 60 fmtRaw).result =
         .error ("Failed to fund account sufficiently. Target: " ++
           fmtRaw 100 ++ ", Got: " ++ fmtRaw 60))) :=
  ⟨by decide, funding_two_attempts 100 40 (.ok ()) 70 (.ok ()) 60 fmtRaw (by decide)⟩

/-- Claim C3: the donor scan visits the fixed candidate list in
declaration order and selects the first candidate whose read balance
covers the requested amount, skipping candidates whose balance read
throws; with no qualifying candidate the routine fails with the
no-suitable-whale error naming the requested amount (provided the
rendered message does not contain the anvil keyword that the catch
handler rewrites); for balances [30, 80, 150] against a requirement of
50 the second candidate is selected. -/
theorem donor_scan_first_sufficient :
    (∀ (amount : Nat) (bal : String → Option Nat) (st : FundSteps)
        (fmt : Nat → String) (w : String),
        FundEvent.impersonate w ∈ (fundTestAccount amount bal st fmt).1 →
        ∃ pre post, USDC_WHALES = pre ++ w :: post ∧
          (∀ u ∈ pre, ∀ b, bal u = some b → b < amount) ∧
          ∃ b, bal w = some b ∧ amount ≤ b) ∧
    (∀ (amount : Nat) (bal : String → Option Nat) (st : FundSteps)
        (fmt : Nat → String),
        (findWhaleGo amount bal USDC_WHALES).2 = none →
        jsIncludes ("No suitable USDC whale found with sufficient balance. Need: " ++
          fmt amount) "anvil_impersonateAccount" = false →
        (fundTestAccount amount bal st fmt).2 =
          .error ("USDC funding failed: " ++
            ("No suitable USDC whale found with sufficient balance. Need: " ++ fmt amount))) ∧
    (findWhaleGo 50 exampleBalances USDC_WHALES).2 =
      some "0x5414d89a8bf7e99d732bc52f3e6a3ef461c0c078" := by
  refine ⟨?_, ?_, rfl⟩
  · intro amount bal st fmt w h
    rcases hscan : (findWhaleGo amount bal USDC_WHALES).2 with _ | w'
    · simp only [fundTestAccount, hscan, List.mem_append, List.mem_singleton] at h
      rcases h with h | h
      · obtain ⟨u, hu⟩ := findWhaleGo_events_check amount bal USDC_WHALES _ h
        cases hu
      · cases h
    · simp only [fundTestAccount, hscan, List.mem_append] at h
      rcases h with h | h
      · obtain ⟨u, hu⟩ := findWhaleGo_events_check amount bal USDC_WHALES _ h
        cases hu
      · have hww : w = w' := (fundAfterSelect_events amount w' st).1 w h
        subst hww
        exact findWhaleGo_some_spec amount bal USDC_WHALES w hscan
  · intro amount bal st fmt hnone hinc
    simp only [fundTestAccount, hnone, wrapFundError, hinc]
    simp

/-- Witness for C3: with every donor balance at 0 and a requirement of
50, the scan selects nobody and the routine fails with the
no-suitable-whale message. -/
theorem donor_scan_first_sufficient_witness :
    (fundTestAccount 50 poorBalances noFailSteps fmtRaw).2 =
      .error ("USDC funding failed: No suitable USDC whale found with sufficient balance. Need: " ++
        fmtRaw 50) :=
  donor_scan_first_sufficient.2.1 50 poorBalances noFailSteps fmtRaw (by decide) (by decide)

/-- Claim C4: every run of the transfer routine that issues the
impersonation grant for a selected donor also issues the revocation for
that donor before the routine returns or throws, on the success path and
on every error path, including when the transfer call itself throws. -/
theorem impersonation_always_revoked (amount : Nat) (bal : String → Option Nat)
    (st : FundSteps) (fmt : Nat → String) (w : String)
    (h : FundEvent.impersonate w ∈ (fundTestAccount amount bal st fmt).1) :
    FundEvent.stopImpersonate w ∈ (fundTestAccount amount bal st fmt).1 := by
  rcases hscan : (findWhaleGo amount bal USDC_WHALES).2 with _ | w'
  · simp only [fundTestAccount, hscan, List.mem_append, List.mem_singleton] at h
    rcases h with h | h
    · obtain ⟨u, hu⟩ := findWhaleGo_events_check amount bal USDC_WHALES _ h
      cases hu
    · cases h
  · simp only [fundTestAccount, hscan, List.mem_append] at h ⊢
    rcases h with h | h
    · obtain ⟨u, hu⟩ := findWhaleGo_events_check amount bal USDC_WHALES _ h
      cases hu
    · have hww : w = w' := (fundAfterSelect_events amount w' st).1 w h
      subst hww
      exact Or.inr (fundAfterSelect_events amount w st).2

/-- Witness for C4: the second candidate is selected for a requirement of
50 over balances [30, 80, 150], the transfer call throws, and the trace
still contains the revocation for that donor. -/
theorem impersonation_always_revoked_witness :
    FundEvent.stopImpersonate "0x5414d89a8bf7e99d732bc52f3e6a3ef461c0c078" ∈
      (fundTestAccount 50 exampleBalances failTransferSteps fmtRaw).1 :=
  impersonation_always_revoked 50 exampleBalances failTransferSteps fmtRaw
    "0x5414d89a8bf7e99d732bc52f3e6a3ef461c0c078" (by decide)

/-- Claim C5: the retry wrapper invokes the underlying operation at most
3 times in total, stops on the first success (every invocation before the
last one failed), and the backoff delay slept before the second
invocation is strictly less than the delay slept before the third, both
capped at the 5000 ms ceiling. -/
theorem retry_at_most_three {R : Type} (f : Nat → Except String R) (context : String) :
    (withErrorHandling f context).attemptsUsed ≤ 3 ∧
    (∀ r, f 1 = .ok r → (withErrorHandling f context).attemptsUsed = 1) ∧
    (∀ k r, 1 ≤ k → k < (withErrorHandling f context).attemptsUsed → f k ≠ .ok r) ∧
    (∀ d1 d2 rest, (withErrorHandling f context).delays = d1 :: d2 :: rest →
      d1 < d2 ∧ d2 ≤ 5000) ∧
    (∀ d ∈ (withErrorHandling f context).delays, d ≤ 5000) := by
  rcases hf1 : f 1 with e1 | r1
  · rcases hf2 : f 2 with e2 | r2
    · rcases hf3 : f 3 with e3 | r3
      · refine ⟨?_, ?_, ?_, ?_, ?_⟩ <;>
          simp [withErrorHandling, withEHGo, hf1, hf2, hf3, backoffDelay]
        · intro k r hk1 hk3
          interval_cases k
          · simp [hf1]
          · simp [hf2]
        · intro d1 d2 rest h1 h2 _
          omega
      · refine ⟨?_, ?_, ?_, ?_, ?_⟩ <;>
          simp [withErrorHandling, withEHGo, hf1, hf2, hf3, backoffDelay]
        · intro k r hk1 hk3
          interval_cases k
          · simp [hf1]
          · simp [hf2]
        · intro d1 d2 rest h1 h2 _
          omega
    · refine ⟨?_, ?_, ?_, ?_, ?_⟩ <;>
        simp [withErrorHandling, withEHGo, hf1, hf2, backoffDelay]
      intro k r hk1 hk2
      interval_cases k
      simp [hf1]
  · refine ⟨?_, ?_, ?_, ?_, ?_⟩ <;>
      simp [withErrorHandling, withEHGo, hf1, backoffDelay]
    intro k r hk1 hk2
    omega

/-- Witness for C5: an operation failing on all three attempts uses 3
invocations and sleeps 1000 ms and then 2000 ms. -/
theorem retry_at_most_three_witness :
    (withErrorHandling retryAllFail "Demo").attemptsUsed ≤ 3 ∧
    (1000 < 2000 ∧ 2000 ≤ 5000) :=
  ⟨(retry_at_most_three retryAllFail "Demo").1,
   (retry_at_most_three retryAllFail "Demo").2.2.2.1 1000 2000 [] (by rfl)⟩

/-- Claim C6: a receipt whose transaction status is one of the terminal
failure values (FAILED, MINED_FAIL) makes the orchestrator raise a
transaction error whose message carries the diagnostic text extracted
from the receipt by extractErrorDetails (re-wrapped once by the catch
handler of the same function); every other status value, including the
pending and mining ones, does not raise, and the call returns a
successful result. -/
theorem receipt_failure_raises (supplyAmount : Nat) (receipt : JSValue) :
    ((jsStrictEqStr (receipt.getField "transactionStatus") "FAILED" = true ∨
      jsStrictEqStr (receipt.getField "transactionStatus") "MINED_FAIL" = true) →
      (executeFusionTransaction supplyAmount receipt).2 =
        .error ("Fusion execution failed: " ++
          ("Fusion transaction failed: " ++ jsToString (extractErrorDetails receipt)))) ∧
    (jsStrictEqStr (receipt.getField "transactionStatus") "FAILED" = false →
     jsStrictEqStr (receipt.getField "transactionStatus") "MINED_FAIL" = false →
      ∃ res, (executeFusionTransaction supplyAmount receipt).2 = .ok res ∧
        res.success = true) := by
  constructor
  · intro h
    have hb : (jsStrictEqStr (receipt.getField "transactionStatus") "FAILED" ||
        jsStrictEqStr (receipt.getField "transactionStatus") "MINED_FAIL") = true := by
      rcases h with h | h <;> simp [h]
    simp [executeFusionTransaction, hb]
  · intro h1 h2
    simp [executeFusionTransaction, h1, h2]

/-- Witness for C6: a FAILED receipt carrying the message AA23 reverted
raises the doubly wrapped transaction error. -/
theorem receipt_failure_raises_witness :
    (executeFusionTransaction 5 failedReceipt).2 =
      .error ("Fusion execution failed: " ++
        ("Fusion transaction failed: " ++ jsToString (extractErrorDetails failedReceipt))) :=
  (receipt_failure_raises 5 failedReceipt).1 (Or.inl (by decide))

/-- Claim C8: when the environment validation pass detects one or more
missing or invalid fields, startup fails with an error whose message is
the aggregation of every detected validation error, and each detectable
defect contributes its named entry to that list (so the message names
every offending field, not only the first). -/
theorem env_validation_aggregates (validUrl : String → Bool) (env : Env)
    (h : envErrors validUrl env ≠ []) :
    loadEnvironment validUrl env =
      .error ("Environment validation failed:\n" ++
        String.intercalate "\n" (envErrors validUrl env)) ∧
    (env.ETH_MAINNET_RPC_URL = none →
      "ETH_MAINNET_RPC_URL is required" ∈ envErrors validUrl env) ∧
    (env.TEST_PRIVATE_KEY = none →
      "TEST_PRIVATE_KEY is required" ∈ envErrors validUrl env) ∧
    (∀ u, env.ETH_MAINNET_RPC_URL = some u → u ≠ "" → validUrl u = false →
      "ETH_MAINNET_RPC_URL must be a valid URL" ∈ envErrors validUrl env) ∧
    (∀ k, env.TEST_PRIVATE_KEY = some k → k ≠ "" → isValidPrivateKey k = false →
      "TEST_PRIVATE_KEY must be a valid private key" ∈ envErrors validUrl env) ∧
    (∀ u, env.MEE_NODE_URL = some u → u ≠ "" → validUrl u = false →
      "MEE_NODE_URL must be a valid URL" ∈ envErrors validUrl env) ∧
    (∀ u, env.ANVIL_RPC_URL = some u → u ≠ "" → validUrl u = false →
      "ANVIL_RPC_URL must be a valid URL" ∈ envErrors validUrl env) ∧
    (∀ p, env.ANVIL_PORT = some p → p ≠ "" → posNumber p = false →
      "ANVIL_PORT must be a positive number" ∈ envErrors validUrl env) ∧
    (∀ p, env.ANVIL_CHAIN_ID = some p → p ≠ "" → posNumber p = false →
      "ANVIL_CHAIN_ID must be a positive number" ∈ envErrors validUrl env) ∧
    (∀ p, env.ANVIL_BLOCK_TIME = some p → p ≠ "" → posNumber p = false →
      "ANVIL_BLOCK_TIME must be a positive number" ∈ envErrors validUrl env) := by
  refine ⟨?_, ?_, ?_, ?_, ?_, ?_, ?_, ?_, ?_, ?_⟩
  · have hne : (envErrors validUrl env).isEmpty = false := by
      simpa [List.isEmpty_iff] using h
    simp [loadEnvironment, hne]
  · intro hf; simp [envErrors, hf]
  · intro hf; simp [envErrors, hf]
  · intro u hf hne hv; simp [envErrors, hf, hne, hv]
  · intro k hf hne hv; simp [envErrors, hf, hne, hv]
  · intro u hf hne hv; simp [envErrors, hf, hne, hv]
  · intro u hf hne hv; simp [envErrors, hf, hne, hv]
  · intro p hf hne hv; simp [envErrors, hf, hne, hv]
  · intro p hf hne hv; simp [envErrors, hf, hne, hv]
  · intro p hf hne hv; simp [envErrors, hf, hne, hv]

/-- Witness for C8: with every variable unset, both required-field errors
are aggregated into the startup failure message. -/
theorem env_validation_aggregates_witness :
    (loadEnvironment urlAlwaysValid envEmpty =
      .error ("Environment validation failed:\n" ++
        String.intercalate "\n" (envErrors urlAlwaysValid envEmpty))) ∧
    "ETH_MAINNET_RPC_URL is required" ∈ envErrors urlAlwaysValid envEmpty ∧
    "TEST_PRIVATE_KEY is required" ∈ envErrors urlAlwaysValid envEmpty :=
  ⟨(env_validation_aggregates urlAlwaysValid envEmpty (by decide)).1,
   (env_validation_aggregates urlAlwaysValid envEmpty (by decide)).2.1 rfl,
   (env_validation_aggregates urlAlwaysValid envEmpty (by decide)).2.2.1 rfl⟩

/-- Whatever extractErrorMessage answers is either a string or the raw
value of the recognized field it extracted. -/
theorem extractErrorMessage_cases (v : JSValue) :
    (extractErrorMessage v).isString = true ∨
    extractErrorMessage v = v.getField "reason" ∨
    extractErrorMessage v = v.getField "message" ∨
    extractErrorMessage v = (v.getField "error").getField "message" ∨
    extractErrorMessage v = v.getField "shortMessage" ∨
    extractErrorMessage v = v.getField "details" := by
  cases v with
  | obj fields =>
      simp only [extractErrorMessage]
      split_ifs <;> simp [JSValue.isString]
  | arr elems =>
      simp only [extractErrorMessage]
      split_ifs <;> simp [JSValue.isString]
  | bool b => simp [extractErrorMessage, typeofObject, JSValue.isString]
  | num n => simp [extractErrorMessage, typeofObject, JSValue.isString]
  | bigint n => simp [extractErrorMessage, typeofObject, JSValue.isString]
  | undef => left; rfl
  | null => left; rfl
  | str s => left; rfl
  | errObj m => left; rfl

/-- Whatever extractErrorDetails answers is a string, the raw value of
the recognized field it extracted, or undefined (when the final JSON
serialization yields no string). -/
theorem extractErrorDetails_cases (v : JSValue) :
    (extractErrorDetails v).isString = true ∨
    extractErrorDetails v = v.getField "message" ∨
    extractErrorDetails v = (v.getField "error").getField "message" ∨
    extractErrorDetails v = v.getField "reason" ∨
    extractErrorDetails v = JSValue.undef := by
  simp only [extractErrorDetails]
  split_ifs
  · simp [JSValue.isString]
  · simp
  · simp
  · simp [JSValue.isString]
  · simp
  · rcases hj : jsonStringify (v.getField "data") with u | os
    · simp [hj, JSValue.isString]
    · rcases os with _ | s
      · simp [hj]
      · simp [hj, JSValue.isString]
  · rcases hj : jsonStringify v with u | os
    · simp [hj, JSValue.isString]
    · rcases os with _ | s
      · simp [hj]
      · simp [hj, JSValue.isString]

/-- Counterexample for C10: an object whose reason field holds the number
42 makes extractErrorMessage return that number (not a string), and the
undefined input makes extractErrorDetails return undefined (JSON
serialization of undefined yields no string and does not throw, so the
String fallback is never reached). -/
theorem extract_nonstring_counterexample :
    extractErrorMessage (JSValue.obj [("reason", JSValue.num 42)]) = JSValue.num 42 ∧
    (extractErrorMessage (JSValue.obj [("reason", JSValue.num 42)])).isString = false ∧
    extractErrorDetails JSValue.undef = JSValue.undef ∧
    (extractErrorDetails JSValue.undef).isString = false :=
  ⟨rfl, rfl, rfl, rfl⟩

/-- Claim C10 (amended): extraction never throws and is total, but is not
string-valued on every input.  extractErrorMessage returns either a
string or the raw value of the first truthy recognized field (reason,
message, error.message, shortMessage, details), and falls back to the
string Unknown error occurred on every primitive non-string, non-Error
input.  extractErrorDetails returns a string, the raw value of a matched
field, or undefined (as at input undefined, where JSON serialization
yields no string); and when every branch falls through and JSON
serialization of the input throws, it falls back to the string
representation String(error). -/
theorem extract_total_amended :
    (∀ v : JSValue,
      (extractErrorMessage v).isString = true ∨
      extractErrorMessage v = v.getField "reason" ∨
      extractErrorMessage v = v.getField "message" ∨
      extractErrorMessage v = (v.getField "error").getField "message" ∨
      extractErrorMessage v = v.getField "shortMessage" ∨
      extractErrorMessage v = v.getField "details") ∧
    (∀ v : JSValue,
      (extractErrorDetails v).isString = true ∨
      extractErrorDetails v = v.getField "message" ∨
      extractErrorDetails v = (v.getField "error").getField "message" ∨
      extractErrorDetails v = v.getField "reason" ∨
      extractErrorDetails v = JSValue.undef) ∧
    (extractErrorMessage JSValue.undef = .str "Unknown error occurred" ∧
     extractErrorMessage JSValue.null = .str "Unknown error occurred" ∧
     (∀ b, extractErrorMessage (JSValue.bool b) = .str "Unknown error occurred") ∧
     (∀ n, extractErrorMessage (JSValue.num n) = .str "Unknown error occurred") ∧
     (∀ n, extractErrorMessage (JSValue.bigint n) = .str "Unknown error occurred")) ∧
    (∀ v : JSValue,
      ((((v.getField "error").getField "errors").truthy &&
        ((v.getField "error").getField "errors").isArr) = false) →
      (v.getField "message").truthy = false →
      ((v.getField "error").getField "message").truthy = false →
      (v.getField "errors").isArr = false →
      (v.getField "reason").truthy = false →
      (v.getField "data").truthy = false →
      jsonStringify v = .error () →
      extractErrorDetails v = .str (jsToString v)) := by
  refine ⟨extractErrorMessage_cases, extractErrorDetails_cases, ⟨rfl, rfl, ?_, ?_, ?_⟩, ?_⟩
  · intro b; simp [extractErrorMessage, typeofObject]
  · intro n; simp [extractErrorMessage, typeofObject]
  · intro n; simp [extractErrorMessage, typeofObject]
  · intro v h1 h2 h3 h4 h5 h6 h7
    simp [extractErrorDetails, h1, h2, h3, h4, h5, h6, h7]

/-- Witness for C10 (amended): at the bigint input 7, every extraction
branch falls through, JSON serialization throws, and extractErrorDetails
answers the string representation of the value. -/
theorem extract_total_amended_witness :
    extractErrorDetails (JSValue.bigint 7) = .str (jsToString (JSValue.bigint 7)) :=
  extract_total_amended.2.2.2 (JSValue.bigint 7) rfl rfl rfl rfl rfl rfl rfl

end Fusion
